import Mathlib

/-!
Shallow embedding of the flight-tracker repository:
- the Proxy Gateway `GET` handler from `src/app/api/states/route.ts`;
- the Viewport Tracker `fetchData` transformation and the IconLayer
  accessors from `src/app/page.tsx`.

JavaScript `null` and `undefined` are both modelled as `Option.none`
(the source treats them alike at every point it distinguishes values:
the position filter checks both, `??` and `||` treat both as absent).
Numbers are modelled as `ℚ`; network and parse effects are inputs to the
embedded functions (an outcome value describing what the environment did),
and a JavaScript `throw` escaping a `try` block is an `Except.error`.
-/

/-- A minimal JSON value, the type of bodies the Gateway relays. -/
inductive Json where
  | null
  | bool (b : Bool)
  | num (q : ℚ)
  | str (s : String)
  | arr (elems : List Json)
  | obj (fields : List (String × Json))

/-- The four query parameters of a Gateway request, as
`searchParams.get` returns them: `none` when the parameter is absent
(JavaScript `null`). -/
structure QueryParams where
  lamin : Option String
  lomin : Option String
  lamax : Option String
  lomax : Option String

/-- JavaScript template-literal interpolation of a
`string | null` value: `null` stringifies to the text `"null"`. -/
def jsTemplate (o : Option String) : String :=
  match o with
  | none => "null"
  | some s => s

/-- The upstream URL built by `route.ts` line 10:
a template literal interpolating the four parameters. -/
def openSkyURL (p : QueryParams) : String :=
  "https://opensky-network.org/api/states/all?lamin=" ++ jsTemplate p.lamin ++
    "&lomin=" ++ jsTemplate p.lomin ++ "&lamax=" ++ jsTemplate p.lamax ++
    "&lomax=" ++ jsTemplate p.lomax

/-- The upstream `fetch` response as the Gateway observes it:
`ok`, `status`, `statusText`, and the result of `response.json()`
(`Except.error e` when parsing throws, carrying `some message` when the
thrown value is an `Error` instance and `none` otherwise). -/
structure UpstreamResponse where
  ok : Bool
  status : Nat
  statusText : String
  jsonBody : Except (Option String) Json

/-- What the environment did for the Gateway's upstream `fetch` call:
either the fetch itself threw (a network/transport failure; `some message`
when the thrown value is an `Error` instance), or a response arrived. -/
inductive UpstreamOutcome where
  | thrown (err : Option String)
  | response (r : UpstreamResponse)

/-- `route.ts` lines 28-31: the caught value's message when it is an
`Error` instance, else the fixed fallback text. -/
def caughtMessage (e : Option String) : String :=
  match e with
  | none => "Unknown error occurred"
  | some msg => msg

/-- An HTTP response produced by the Gateway (`NextResponse.json`):
a status code and a JSON body. `NextResponse.json(data)` with no options
has status 200. -/
structure GatewayResponse where
  status : Nat
  body : Json

/-- The full observable behaviour of one Gateway request: the upstream
URL it fetches (the handler always reaches the `fetch` call) and the
response it returns. -/
structure GatewayResult where
  requestURL : String
  response : GatewayResponse

/-- The Gateway handler `GET` of `src/app/api/states/route.ts`:
reads the four parameters, always issues the upstream fetch, and returns
either the upstream JSON (status 200), the error object with the upstream
status (upstream non-OK), or the error object with status 500 (anything
thrown in the `try` block). -/
def GET (p : QueryParams) (o : UpstreamOutcome) : GatewayResult :=
  { requestURL := openSkyURL p
    response :=
      match o with
      | .thrown e =>
          ⟨500, .obj [("error", .str ("Internal Server Error: " ++ caughtMessage e))]⟩
      | .response r =>
          if r.ok then
            match r.jsonBody with
            | .ok data => ⟨200, data⟩
            | .error e =>
                ⟨500, .obj [("error", .str ("Internal Server Error: " ++ caughtMessage e))]⟩
          else
            ⟨r.status,
              .obj [("error",
                .str ("Error fetching from OpenSky Network: " ++ r.statusText))]⟩ }

/-- The upstream `StateVector` of `page.tsx` lines 31-50: a positional
array, given field names after the index comments of the source.
`Option` fields are `number | null` (or optional) in the source. -/
structure StateVector where
  icao24 : String
  callsign : Option String
  origin_country : String
  time_position : Option ℚ
  last_contact : ℚ
  longitude : Option ℚ
  latitude : Option ℚ
  baro_altitude : Option ℚ
  on_ground : Bool
  velocity : Option ℚ
  true_track : Option ℚ
  vertical_rate : Option ℚ
  sensors : Option (List ℚ)
  geo_altitude : Option ℚ
  squawk : Option String
  spi : Bool
  position_source : ℚ
  category : Option ℚ
deriving DecidableEq

/-- The `AircraftData` interface of `page.tsx` lines 10-29. Optional
interface fields are `Option`; `category` is a required `number`. -/
structure AircraftData where
  icao24 : String
  callsign : Option String
  origin_country : String
  time_position : Option ℚ
  last_contact : ℚ
  longitude : Option ℚ
  latitude : Option ℚ
  baro_altitude : Option ℚ
  on_ground : Bool
  velocity : Option ℚ
  true_track : Option ℚ
  vertical_rate : Option ℚ
  sensors : Option (List ℚ)
  geo_altitude : Option ℚ
  squawk : Option String
  spi : Bool
  position_source : ℚ
  category : ℚ
deriving DecidableEq

/-- The body the Tracker reads from a successful Gateway response:
`data.states`, an array of StateVectors or `null`/absent (`none`). The
`time` field of the upstream shape is never read by the Tracker. -/
structure ApiData where
  time : Option ℚ
  states : Option (List StateVector)

/-- The position filter of `page.tsx` line 192:
`state[5] !== null && state[6] !== null && state[5] !== undefined &&
state[6] !== undefined`. -/
def hasPosition (s : StateVector) : Bool :=
  s.longitude.isSome && s.latitude.isSome

/-- The per-element mapping of `page.tsx` lines 193-212. `?? undefined`
on an `Option` value is the identity; `state[10] ?? 0` and
`state[17] ?? 0` are `Option.getD 0`; `state[5] as number` is a type
assertion, not a conversion, so the value is carried unchanged. -/
def toAircraftData (s : StateVector) : AircraftData :=
  { icao24 := s.icao24
    callsign := s.callsign
    origin_country := s.origin_country
    time_position := s.time_position
    last_contact := s.last_contact
    longitude := s.longitude
    latitude := s.latitude
    baro_altitude := s.baro_altitude
    on_ground := s.on_ground
    velocity := s.velocity
    true_track := some (s.true_track.getD 0)
    vertical_rate := s.vertical_rate
    sensors := s.sensors
    geo_altitude := s.geo_altitude
    squawk := s.squawk
    spi := s.spi
    position_source := s.position_source
    category := s.category.getD 0 }

/-- `page.tsx` lines 191-212: `(data.states || [])` (both `null` and
absent are falsy, and an array — even empty — is truthy, so this is
`getD []`), then the position filter, then the element mapping. -/
def formatStates (d : ApiData) : List AircraftData :=
  ((d.states.getD []).filter hasPosition).map toAircraftData

/-- A `google.maps.LatLng` corner value. -/
structure LatLng where
  lat : ℚ
  lng : ℚ

/-- A `google.maps.LatLngBounds` value: southwest and northeast corners. -/
structure Bounds where
  sw : LatLng
  ne : LatLng

/-- The bounding box of `page.tsx` lines 175-180, computed from the
southwest and northeast corners of the map bounds. -/
structure BBox where
  lamin : ℚ
  lomin : ℚ
  lamax : ℚ
  lomax : ℚ
deriving DecidableEq

def boundsToBBox (b : Bounds) : BBox :=
  { lamin := b.sw.lat, lomin := b.sw.lng, lamax := b.ne.lat, lomax := b.ne.lng }

/-- The map object as `fetchData` reads it: `getZoom()` returns
`number | undefined`, `getBounds()` returns bounds or `undefined`. -/
structure MapObj where
  zoom : Option ℚ
  bounds : Option Bounds

/-- The Tracker-side `fetch('/api/states?...')` response: `ok`,
`statusText`, and the result of `response.json()` (`Except.error` when
parsing throws). -/
structure TrackerResponse where
  ok : Bool
  statusText : String
  jsonData : Except String ApiData

/-- What the environment did for the Tracker's fetch call: the fetch
threw (network/transport failure) or a response arrived. -/
inductive TrackerOutcome where
  | thrown (msg : String)
  | response (r : TrackerResponse)

/-- The observable result of one `fetchData` cycle: the bounding-box
queries issued to the Gateway (at most one) and the aircraft record set
after the cycle. -/
structure FetchResult where
  queries : List BBox
  aircraft : List AircraftData
deriving DecidableEq

/-- The `try` block of `page.tsx` lines 183-214, from the point the
fetch resolves: a thrown fetch or a throwing `response.json()`
propagates to the `catch` (`Except.error`); a non-OK response returns
normally having set the aircraft list empty; a parsed body is formatted. -/
def tryFetchStates (o : TrackerOutcome) : Except String (List AircraftData) :=
  match o with
  | .thrown msg => .error msg
  | .response r =>
      if r.ok then
        match r.jsonData with
        | .ok d => .ok (formatStates d)
        | .error msg => .error msg
      else
        .ok []

/-- The Tracker `fetchData` of `page.tsx` lines 157-219. Its value is
`Except.ok` of the cycle's observable result; an `Except.error` would be
an exception escaping to the caller (the `catch` at lines 215-218 makes
that impossible). `prior` is the aircraft set before the cycle; a branch
that never calls `setAircraftData` leaves it unchanged. -/
def fetchData (currentMap : Option MapObj) (o : TrackerOutcome)
    (prior : List AircraftData) : Except String FetchResult :=
  match currentMap with
  | none => .ok ⟨[], prior⟩
  | some m =>
      match m.zoom with
      | none => .ok ⟨[], []⟩
      | some z =>
          if z < 7 then .ok ⟨[], []⟩
          else
            match m.bounds with
            | none => .ok ⟨[], prior⟩
            | some b =>
                match tryFetchStates o with
                | .ok set => .ok ⟨[boundsToBBox b], set⟩
                | .error _ => .ok ⟨[boundsToBBox b], []⟩

/-- JavaScript `x || d` on a `number | undefined` value: `undefined` and
`0` are falsy. Used by the IconLayer accessors with `d = 0`. -/
def jsNumOr (o : Option ℚ) (d : ℚ) : ℚ :=
  match o with
  | none => d
  | some x => if x = 0 then d else x

/-- IconLayer `getPosition` of `page.tsx` line 272:
`[d.longitude || 0, d.latitude || 0, d.baro_altitude || 0]`. -/
def getPosition (r : AircraftData) : ℚ × ℚ × ℚ :=
  (jsNumOr r.longitude 0, jsNumOr r.latitude 0, jsNumOr r.baro_altitude 0)

/-- IconLayer `getSize` of `page.tsx` line 273: `d.on_ground ? 10 : 20`. -/
def getSize (r : AircraftData) : ℚ :=
  if r.on_ground then 10 else 20

/-- IconLayer `getColor` of `page.tsx` line 274:
`d.on_ground ? [255,0,0,200] : [0,255,0,200]`. -/
def getColor (r : AircraftData) : List ℕ :=
  if r.on_ground then [255, 0, 0, 200] else [0, 255, 0, 200]

/-- IconLayer `getAngle` of `page.tsx` line 275:
`-(d.true_track || 0) + 90`. -/
def getAngle (r : AircraftData) : ℚ :=
  -(jsNumOr r.true_track 0) + 90

/-- A concrete StateVector with a full position, used as witness data. -/
def svGood : StateVector :=
  { icao24 := "abc123", callsign := some "ANA1", origin_country := "Japan"
    time_position := none, last_contact := 10, longitude := some 139
    latitude := some 35, baro_altitude := some 1000, on_ground := false
    velocity := some 250, true_track := none, vertical_rate := none
    sensors := none, geo_altitude := none, squawk := none, spi := false
    position_source := 0, category := none }

/-- A concrete StateVector with a null longitude, used as witness data. -/
def svNoPos : StateVector :=
  { svGood with icao24 := "def456", longitude := none }

/-- A concrete successful-response body holding both witness vectors. -/
def dEx : ApiData := ⟨some 1, some [svGood, svNoPos]⟩

/-- Concrete map bounds used as witness data. -/
def boundsEx : Bounds := ⟨⟨35, 139⟩, ⟨36, 140⟩⟩

/-- Claim C1: with the map available, a zoom that is undefined or
strictly below 7 makes `fetchData` replace the aircraft set by the empty
set and issue no query; a zoom of at least 7 together with available
bounds makes it issue exactly one query, for that bounding box. -/
theorem zoomGate (m : MapObj) (o : TrackerOutcome) (prior : List AircraftData) :
    ((m.zoom = none ∨ ∃ z, m.zoom = some z ∧ z < 7) →
      fetchData (some m) o prior = Except.ok ⟨[], []⟩) ∧
    (∀ z b, m.zoom = some z → 7 ≤ z → m.bounds = some b →
      ∃ res, fetchData (some m) o prior = Except.ok res ∧
        res.queries = [boundsToBBox b]) := by
  constructor
  · rintro (hz | ⟨z, hz, hlt⟩)
    · simp [fetchData, hz]
    · simp [fetchData, hz, hlt]
  · intro z b hz h7 hb
    have hnl : ¬ z < 7 := not_lt.mpr h7
    cases h : tryFetchStates o <;>
      simp [fetchData, hz, hb, hnl, h]

/-- Witness for `zoomGate` at zoom 6 (clears, no query) and zoom 7 with
bounds (exactly one query). -/
theorem zoomGate_witness :
    fetchData (some ⟨some 6, none⟩) (.thrown "boom") [] = Except.ok ⟨[], []⟩ ∧
    ∃ res, fetchData (some ⟨some 7, some boundsEx⟩) (.thrown "boom") [] =
      Except.ok res ∧ res.queries = [boundsToBBox boundsEx] :=
  ⟨(zoomGate ⟨some 6, none⟩ (.thrown "boom") []).1 (Or.inr ⟨6, rfl, by norm_num⟩),
   (zoomGate ⟨some 7, some boundsEx⟩ (.thrown "boom") []).2 7 boundsEx rfl
     (by norm_num) rfl⟩

/-- Claim C5: when the cycle reaches the fetch (zoom gate passed, bounds
available) and the response is non-OK, or the fetch or body parse throws,
`fetchData` replaces the aircraft set by the empty set and returns
normally (`Except.ok`: no exception reaches the caller). -/
theorem failureClears (m : MapObj) (z : ℚ) (b : Bounds) (o : TrackerOutcome)
    (prior : List AircraftData)
    (hz : m.zoom = some z) (h7 : 7 ≤ z) (hb : m.bounds = some b)
    (hfail : (∃ r, o = .response r ∧ r.ok = false) ∨
      (∃ msg, o = .thrown msg) ∨
      ∃ r e, o = .response r ∧ r.jsonData = .error e) :
    fetchData (some m) o prior = Except.ok ⟨[boundsToBBox b], []⟩ := by
  have hnl : ¬ z < 7 := not_lt.mpr h7
  rcases hfail with ⟨r, rfl, hok⟩ | ⟨msg, rfl⟩ | ⟨r, e, rfl, he⟩
  · simp [fetchData, hz, hb, hnl, tryFetchStates, hok]
  · simp [fetchData, hz, hb, hnl, tryFetchStates]
  · cases hok : r.ok <;> simp [fetchData, hz, hb, hnl, tryFetchStates, hok, he]

/-- Witness for `failureClears`: a 503 response empties the set. -/
theorem failureClears_witness :
    fetchData (some ⟨some 8, some boundsEx⟩)
        (.response ⟨false, "Service Unavailable", .error "unreached"⟩)
        [toAircraftData svGood] =
      Except.ok ⟨[boundsToBBox boundsEx], []⟩ :=
  failureClears ⟨some 8, some boundsEx⟩ 8 boundsEx _ _ rfl (by norm_num) rfl
    (Or.inl ⟨_, rfl, rfl⟩)

/-- Claim C6: when the zoom gate passes but bounds are unavailable,
`fetchData` issues no query and leaves the prior aircraft set unchanged. -/
theorem boundsSkip (m : MapObj) (z : ℚ) (o : TrackerOutcome)
    (prior : List AircraftData)
    (hz : m.zoom = some z) (h7 : 7 ≤ z) (hb : m.bounds = none) :
    fetchData (some m) o prior = Except.ok ⟨[], prior⟩ := by
  have hnl : ¬ z < 7 := not_lt.mpr h7
  simp [fetchData, hz, hb, hnl]

/-- Witness for `boundsSkip`: zoom 9, no bounds, prior data kept. -/
theorem boundsSkip_witness :
    fetchData (some ⟨some 9, none⟩) (.thrown "boom") [toAircraftData svGood] =
      Except.ok ⟨[], [toAircraftData svGood]⟩ :=
  boundsSkip ⟨some 9, none⟩ 9 _ _ rfl (by norm_num) rfl

/-- Claim C9: a successful response whose `states` field is `null` or
absent (both `none` here) makes the transformation produce the empty set,
replacing the prior set, with no exception (`Except.ok`). -/
theorem nullStatesEmpty (m : MapObj) (z : ℚ) (b : Bounds)
    (r : TrackerResponse) (d : ApiData) (prior : List AircraftData)
    (hz : m.zoom = some z) (h7 : 7 ≤ z) (hb : m.bounds = some b)
    (hok : r.ok = true) (hd : r.jsonData = .ok d) (hs : d.states = none) :
    fetchData (some m) (.response r) prior =
      Except.ok ⟨[boundsToBBox b], []⟩ := by
  have hnl : ¬ z < 7 := not_lt.mpr h7
  simp [fetchData, hz, hb, hnl, tryFetchStates, hok, hd, formatStates, hs]

/-- Witness for `nullStatesEmpty`: `states = null` wipes prior data. -/
theorem nullStatesEmpty_witness :
    fetchData (some ⟨some 8, some boundsEx⟩)
        (.response ⟨true, "OK", .ok ⟨some 5, none⟩⟩)
        [toAircraftData svGood] =
      Except.ok ⟨[boundsToBBox boundsEx], []⟩ :=
  nullStatesEmpty ⟨some 8, some boundsEx⟩ 8 boundsEx _ ⟨some 5, none⟩ _
    rfl (by norm_num) rfl rfl rfl rfl

/-- Claim C2: every record the transformation produces has non-null
longitude and latitude, and a StateVector whose longitude or latitude is
null never contributes its record to the produced set. -/
theorem renderSetPositions (d : ApiData) :
    (∀ r ∈ formatStates d, r.longitude.isSome ∧ r.latitude.isSome) ∧
    (∀ sv ∈ d.states.getD [], sv.longitude = none ∨ sv.latitude = none →
      toAircraftData sv ∉ formatStates d) := by
  have h1 : ∀ r ∈ formatStates d, r.longitude.isSome ∧ r.latitude.isSome := by
    intro r hr
    simp only [formatStates, List.mem_map, List.mem_filter] at hr
    obtain ⟨sv, ⟨_, hpos⟩, rfl⟩ := hr
    simp only [hasPosition, Bool.and_eq_true] at hpos
    exact ⟨hpos.1, hpos.2⟩
  refine ⟨h1, ?_⟩
  intro sv _ hnull hmem
  have hsome := h1 _ hmem
  rcases hnull with h | h
  · rw [show (toAircraftData sv).longitude = sv.longitude from rfl, h] at hsome
    exact absurd hsome.1 (by simp)
  · rw [show (toAircraftData sv).latitude = sv.latitude from rfl, h] at hsome
    exact absurd hsome.2 (by simp)

/-- Witness for `renderSetPositions`: the vector with null longitude is
absent from the formatted set; the surviving record has a position. -/
theorem renderSetPositions_witness :
    toAircraftData svNoPos ∉ formatStates dEx ∧
    (toAircraftData svGood).longitude.isSome ∧
    (toAircraftData svGood).latitude.isSome :=
  ⟨(renderSetPositions dEx).2 svNoPos (by simp [dEx]) (Or.inl rfl),
   (renderSetPositions dEx).1 (toAircraftData svGood)
     (by simp [formatStates, dEx, hasPosition, svGood, svNoPos])⟩

/-- Claim C4: the mapping gives `true_track` (heading) the value 0 when
the source index-10 value is null and `category` the value 0 when the
source index-17 value is absent; present source values pass unchanged. -/
theorem headingCategoryDefaults (sv : StateVector)
    (_hlon : sv.longitude.isSome) (_hlat : sv.latitude.isSome) :
    ((sv.true_track = none → (toAircraftData sv).true_track = some 0) ∧
      ∀ t, sv.true_track = some t → (toAircraftData sv).true_track = some t) ∧
    ((sv.category = none → (toAircraftData sv).category = 0) ∧
      ∀ c, sv.category = some c → (toAircraftData sv).category = c) := by
  refine ⟨⟨fun h => ?_, fun t h => ?_⟩, fun h => ?_, fun c h => ?_⟩ <;>
    simp [toAircraftData, h]

/-- Witness for `headingCategoryDefaults` at a vector with null heading
and absent category. -/
theorem headingCategoryDefaults_witness :
    (toAircraftData svGood).true_track = some 0 ∧
    (toAircraftData svGood).category = 0 :=
  ⟨((headingCategoryDefaults svGood rfl rfl).1).1 rfl,
   ((headingCategoryDefaults svGood rfl rfl).2).1 rfl⟩

/-- Claim C3: for a record with a position, `getPosition` is
(longitude, latitude, baro-altitude-or-0); `getSize` is the smaller 10
on ground and 20 airborne; `getColor` is the red RGBA on ground and the
green RGBA airborne; and `getAngle` is -(heading) + 90. -/
theorem rendererAccessors (r : AircraftData) :
    (∀ lon lat, r.longitude = some lon → r.latitude = some lat →
      getPosition r = (lon, lat, r.baro_altitude.getD 0)) ∧
    (r.on_ground = true → getSize r = 10 ∧ getColor r = [255, 0, 0, 200]) ∧
    (r.on_ground = false → getSize r = 20 ∧ getColor r = [0, 255, 0, 200]) ∧
    (∀ h, r.true_track = some h → getAngle r = -h + 90) := by
  have hjs : ∀ o : Option ℚ, jsNumOr o 0 = o.getD 0 := by
    intro o
    cases o with
    | none => rfl
    | some x =>
        by_cases hx : x = 0 <;> simp [jsNumOr, hx]
  refine ⟨fun lon lat hlon hlat => ?_, fun h => ?_, fun h => ?_,
    fun a ha => ?_⟩
  · simp [getPosition, hjs, hlon, hlat]
  · simp [getSize, getColor, h]
  · simp [getSize, getColor, h]
  · simp [getAngle, hjs, ha]

/-- Witness for `rendererAccessors` at a concrete airborne record with
heading 180: position (139, 35, 1000), size 20, green color, angle -90. -/
theorem rendererAccessors_witness :
    getPosition (toAircraftData svGood) = (139, 35, 1000) ∧
    getSize (toAircraftData svGood) = 20 ∧
    getColor (toAircraftData svGood) = [0, 255, 0, 200] ∧
    getAngle (toAircraftData { svGood with true_track := some 180 }) =
      -180 + 90 :=
  ⟨by
    have h := (rendererAccessors (toAircraftData svGood)).1 139 35 rfl rfl
    simpa [toAircraftData, svGood] using h,
   ((rendererAccessors (toAircraftData svGood)).2.2.1 rfl).1,
   ((rendererAccessors (toAircraftData svGood)).2.2.1 rfl).2,
   (rendererAccessors
     (toAircraftData { svGood with true_track := some 180 })).2.2.2 180 rfl⟩


/-- Claim C7: on an upstream non-OK response the Gateway returns the
upstream status with an `{error: string}` body whose message ends with
the upstream status text; on a thrown fetch or a throwing body parse it
returns status 500 with an `{error: string}` body. In every failure case
the body is the error object, never upstream data, and `GET` returns a
value (it does not crash). -/
theorem gatewayErrors (p : QueryParams) :
    (∀ r : UpstreamResponse, r.ok = false →
      (GET p (.response r)).response.status = r.status ∧
      (GET p (.response r)).response.body =
        Json.obj [("error",
          Json.str ("Error fetching from OpenSky Network: " ++ r.statusText))]) ∧
    (∀ e, (GET p (.thrown e)).response.status = 500 ∧
      ∃ msg, (GET p (.thrown e)).response.body =
        Json.obj [("error", Json.str msg)]) ∧
    (∀ (r : UpstreamResponse) e, r.ok = true → r.jsonBody = .error e →
      (GET p (.response r)).response.status = 500 ∧
      ∃ msg, (GET p (.response r)).response.body =
        Json.obj [("error", Json.str msg)]) := by
  refine ⟨fun r hok => ?_, fun e => ?_, fun r e hok he => ?_⟩
  · simp [GET, hok]
  · exact ⟨rfl, _, rfl⟩
  · simp [GET, hok, he]

/-- Witness for `gatewayErrors`: a 503 upstream response yields status
503 and an error body carrying the upstream status text. -/
theorem gatewayErrors_witness :
    (GET ⟨some "10", some "10", some "20", some "20"⟩
        (.response ⟨false, 503, "Service Unavailable", .error none⟩)).response.status
      = 503 ∧
    (GET ⟨some "10", some "10", some "20", some "20"⟩
        (.response ⟨false, 503, "Service Unavailable", .error none⟩)).response.body
      = Json.obj [("error",
          Json.str "Error fetching from OpenSky Network: Service Unavailable")] :=
  (gatewayErrors ⟨some "10", some "10", some "20", some "20"⟩).1
    ⟨false, 503, "Service Unavailable", .error none⟩ rfl

/-- Claim C8: an OK upstream response with a parseable JSON body makes
the Gateway return status 200 and exactly the upstream body. -/
theorem gatewayPassthrough (p : QueryParams) (r : UpstreamResponse)
    (data : Json) (hok : r.ok = true) (hj : r.jsonBody = .ok data) :
    GET p (.response r) = ⟨openSkyURL p, 200, data⟩ := by
  simp [GET, hok, hj]

/-- Witness for `gatewayPassthrough`: the spec's example body
`{time: 1, states: []}` at bounds 10,10,20,20 comes back unchanged with
status 200. -/
theorem gatewayPassthrough_witness :
    GET ⟨some "10", some "10", some "20", some "20"⟩
        (.response ⟨true, 200, "OK",
          .ok (Json.obj [("time", Json.num 1), ("states", Json.arr [])])⟩) =
      ⟨openSkyURL ⟨some "10", some "10", some "20", some "20"⟩, 200,
        Json.obj [("time", Json.num 1), ("states", Json.arr [])]⟩ :=
  gatewayPassthrough ⟨some "10", some "10", some "20", some "20"⟩
    ⟨true, 200, "OK",
      .ok (Json.obj [("time", Json.num 1), ("states", Json.arr [])])⟩
    (Json.obj [("time", Json.num 1), ("states", Json.arr [])]) rfl rfl

/-- Claim C10: the Gateway always issues the upstream request for the
URL it builds (no validation or rejection), and each absent query
parameter appears in that URL as the literal text `null` in place of its
value. -/
theorem missingParamsNull (p : QueryParams) (o : UpstreamOutcome) :
    (GET p o).requestURL = openSkyURL p ∧
    (p.lamin = none → ∃ a b, openSkyURL p = a ++ "lamin=null" ++ b) ∧
    (p.lomin = none → ∃ a b, openSkyURL p = a ++ "lomin=null" ++ b) ∧
    (p.lamax = none → ∃ a b, openSkyURL p = a ++ "lamax=null" ++ b) ∧
    (p.lomax = none → ∃ a b, openSkyURL p = a ++ "lomax=null" ++ b) := by
  refine ⟨rfl, fun h => ?_, fun h => ?_, fun h => ?_, fun h => ?_⟩
  · refine ⟨"https://opensky-network.org/api/states/all?",
      "&lomin=" ++ jsTemplate p.lomin ++ "&lamax=" ++ jsTemplate p.lamax ++
        "&lomax=" ++ jsTemplate p.lomax, ?_⟩
    simp only [openSkyURL, h, jsTemplate, String.append_assoc]
    rfl
  · refine ⟨"https://opensky-network.org/api/states/all?lamin=" ++
        jsTemplate p.lamin ++ "&",
      "&lamax=" ++ jsTemplate p.lamax ++ "&lomax=" ++ jsTemplate p.lomax, ?_⟩
    simp only [openSkyURL, h, jsTemplate, String.append_assoc]
    rw [show ("&lomin=" : String) = "&" ++ "lomin=" from rfl]
    simp only [String.append_assoc]
    rfl
  · refine ⟨"https://opensky-network.org/api/states/all?lamin=" ++
        jsTemplate p.lamin ++ "&lomin=" ++ jsTemplate p.lomin ++ "&",
      "&lomax=" ++ jsTemplate p.lomax, ?_⟩
    simp only [openSkyURL, h, jsTemplate, String.append_assoc]
    rw [show ("&lamax=" : String) = "&" ++ "lamax=" from rfl]
    simp only [String.append_assoc]
    rfl
  · refine ⟨"https://opensky-network.org/api/states/all?lamin=" ++
        jsTemplate p.lamin ++ "&lomin=" ++ jsTemplate p.lomin ++ "&lamax=" ++
        jsTemplate p.lamax ++ "&", "", ?_⟩
    simp only [openSkyURL, h, jsTemplate, String.append_assoc]
    rw [show ("&lomax=" : String) = "&" ++ "lomax=" from rfl]
    simp only [String.append_assoc]
    rfl

/-- Witness for `missingParamsNull`: with only `lamin` absent the fetch
is still issued and its URL reads `lamin=null`. -/
theorem missingParamsNull_witness :
    (GET ⟨none, some "10", some "20", some "20"⟩ (.thrown none)).requestURL =
      openSkyURL ⟨none, some "10", some "20", some "20"⟩ ∧
    ∃ a b, openSkyURL ⟨none, some "10", some "20", some "20"⟩ =
      a ++ "lamin=null" ++ b :=
  ⟨(missingParamsNull ⟨none, some "10", some "20", some "20"⟩ (.thrown none)).1,
   (missingParamsNull ⟨none, some "10", some "20", some "20"⟩
     (.thrown none)).2.1 rfl⟩
